import Mathlib

/-!
Shallow embedding of the `simple-sds011` SDS011 particulate-sensor driver
(`src/simple_sds011/__init__.py`; `src/sds011.py` duplicates the codec parts).

Bytes are modelled as `Nat` (values 0..255 where the source guarantees it),
byte strings as `List Nat`. Python exceptions become an `Except` error type:
`KeyError` from dict lookups and `IndexError` from out-of-range indexing are
the only exceptions the parsing layer can raise. The serial transport is
modelled as an oracle state: a log of written messages and a queue of
pending read results (a `read(10)` with no pending data returns the empty
byte string, as pyserial does on timeout).
-/

namespace SDS011

/-- The constant `_MSG_HEAD` (byte 0xAA). -/
def MSG_HEAD : Nat := 0xaa

/-- The constant `_MSG_ID` (byte 0xB4). -/
def MSG_ID : Nat := 0xb4

/-- The constant `_MSG_TAIL` (byte 0xAB). -/
def MSG_TAIL : Nat := 0xab

/-- The constant `_CMD_REPORT_MODE` (2). -/
def CMD_REPORT_MODE : Nat := 2

/-- The constant `_CMD_QUERY` (4). -/
def CMD_QUERY : Nat := 4

/-- The constant `_CMD_DEV_ID` (5). -/
def CMD_DEV_ID : Nat := 5

/-- The constant `_CMD_WAKE_STATE` (6). -/
def CMD_WAKE_STATE : Nat := 6

/-- The constant `_CMD_FIRMWARE` (7). -/
def CMD_FIRMWARE : Nat := 7

/-- The constant `_CMD_WORK_PERIOD` (8). -/
def CMD_WORK_PERIOD : Nat := 8

/-- The `device_id` property: always returns the broadcast id, two 0xFF
bytes (per-device addressing is unimplemented). -/
def device_id : List Nat := [0xff, 0xff]

/-- Python exceptions raised by the interpretation layer: `KeyError k`
from a dict lookup with an unmapped byte key, `IndexError` from indexing
a byte string out of range. -/
inductive PyError where
  | keyError (k : Nat) : PyError
  | indexError : PyError
deriving DecidableEq, Repr

/-- Python `bytestring[i]` on a byte string: the byte, or `IndexError`. -/
def pyget (b : List Nat) (i : Nat) : Except PyError Nat :=
  match b[i]? with
  | some v => Except.ok v
  | none => Except.error PyError.indexError

/-- Python `bytestring[i:j]` (for `0 ≤ i ≤ j`): never raises, clamps to
the available bytes. -/
def pyslice (b : List Nat) (i j : Nat) : List Nat :=
  (b.drop i).take (j - i)

/-- Python little-endian `int.from_bytes`: first byte least significant. -/
def from_bytes_le (l : List Nat) : Nat :=
  l.foldr (fun byte acc => byte + 256 * acc) 0

/-- The function `_calc_payload_checksum(payload)`: sum of the bytes, low 8 bits. -/
def calc_payload_checksum (payload : List Nat) : Nat :=
  payload.sum % 256

/-- Decoded `value` field of an interpreted reply: a plain byte for most
properties, the firmware date triple (rendered as a dash-separated date string`
in the source; modelled as the three numbers), or the pm2.5/pm10.0 pair
of a sample (`int.from_bytes(..)/10`, modelled exactly in `ℚ`). -/
inductive Value where
  | int (n : Nat) : Value
  | firmware (year month day : Nat) : Value
  | sample (pm25 pm100 : ℚ) : Value
deriving DecidableEq

/-- The `type`/`value` part built by `_interpret_property` / `_interpret_sample`. -/
structure ReplyPart where
  type : String
  value : Value
deriving DecidableEq

/-- The full dict built by `interpret`:
`{type: str, set: int, value: .., id: bytes, checksum: bool}`. -/
structure Reply where
  type : String
  set : Nat
  value : Value
  id : List Nat
  checksum : Bool
deriving DecidableEq

/-- The `property_switch` dict in `_interpret_property`:
mapping 0x02 to mode, 0x05 to id, 0x06 to active, 0x07 to firmware and
0x08 to period. -/
def property_switch (k : Nat) : Option String :=
  if k = 0x02 then some "mode"
  else if k = 0x05 then some "id"
  else if k = 0x06 then some "active"
  else if k = 0x07 then some "firmware"
  else if k = 0x08 then some "period"
  else none

/-- The function `_interpret_property(bytestring)`: keyed on byte 2; firmware decodes
bytes 3..5 as (2000+year, month, day), every other property takes byte 4
as its value. An unmapped byte 2 raises `KeyError`. -/
def interpret_property (b : List Nat) : Except PyError ReplyPart := do
  let k ← pyget b 2
  match property_switch k with
  | none => Except.error (PyError.keyError k)
  | some t =>
    if t = "firmware" then do
      let y ← pyget b 3
      let m ← pyget b 4
      let d ← pyget b 5
      Except.ok ⟨t, Value.firmware (2000 + y) m d⟩
    else do
      let v ← pyget b 4
      Except.ok ⟨t, Value.int v⟩

/-- The function `_interpret_sample(bytestring)`: bytes 2..3 and 4..5 little-endian,
divided by 10. Slicing never raises. -/
def interpret_sample (b : List Nat) : ReplyPart :=
  ⟨"sample",
   Value.sample ((from_bytes_le (pyslice b 2 4) : ℚ) / 10)
                ((from_bytes_le (pyslice b 4 6) : ℚ) / 10)⟩

/-- The method `interpret(bytestring)`: dispatch on byte 1 through the
`{0xc5: property, 0xc0: sample}` dict (an unmapped byte 1 raises
`KeyError`), then add `set` (byte 3), `id` (bytes 6..7) and
`checksum` (byte 8 == sum of bytes 2..7 mod 256). No byte of the
input other than positions 1..8 is ever examined: there is no
head/tail framing check. -/
def interpret (b : List Nat) : Except PyError Reply := do
  let k ← pyget b 1
  let part ←
    if k = 0xc5 then interpret_property b
    else if k = 0xc0 then Except.ok (interpret_sample b)
    else Except.error (PyError.keyError k)
  let s ← pyget b 3
  let idBytes := pyslice b 6 8
  let c ← pyget b 8
  Except.ok ⟨part.type, s, part.value, idBytes, decide (c = calc_payload_checksum (pyslice b 2 8))⟩

/-- The method `_send_command(command, write, value)`: builds
HEAD ++ MSG_ID ++ payload ++ checksum ++ TAIL where
payload = [command, write, value] ++ ten zero bytes ++ device id.
The device id is the `device_id` property of the instance (always
`[0xff, 0xff]` in the source); it is kept as a parameter `did` so the
packet shape can be stated for any 2-byte id. -/
def send_command_message (did : List Nat) (command write value : Nat) : List Nat :=
  let payload := [command, write, value] ++ List.replicate 10 0 ++ did
  let checksum := payload.sum % 256
  [MSG_HEAD, MSG_ID] ++ payload ++ [checksum, MSG_TAIL]

/-- The serial transport, modelled as an oracle: `writes` logs every
message written, `reads` is the queue of byte strings the device will
answer with (one entry per `read(10)` call; an exhausted queue models a
timeout, which pyserial reports as the empty byte string). -/
structure Transport where
  writes : List (List Nat)
  reads : List (List Nat)
deriving DecidableEq

/-- Models `self._sd.write(msg)`. -/
def Transport.write (t : Transport) (msg : List Nat) : Transport :=
  ⟨t.writes ++ [msg], t.reads⟩

/-- Models `self._sd.read(10)`: pops the next pending response (possibly short),
or returns the empty byte string on timeout. -/
def Transport.read (t : Transport) : List Nat × Transport :=
  match t.reads with
  | [] => ([], t)
  | r :: rest => (r, ⟨t.writes, rest⟩)

/-- The five keys of `self.info` (all initialised to `None` in `__init__`). -/
inductive PropKey where
  | active | devId | firmware | mode | period
deriving DecidableEq, Repr

/-- The Python string naming each info key. -/
def PropKey.name : PropKey → String
  | .active => "active"
  | .devId => "device_id"
  | .firmware => "firmware"
  | .mode => "mode"
  | .period => "period"

/-- Models `self.info`: mapping from property key to the last stored value
(`None` when unknown). -/
def Info : Type := PropKey → Option Value

/-- Models the assignment of v to key p in `self.info`. -/
def Info.store (i : Info) (p : PropKey) (v : Option Value) : Info :=
  fun q => if q = p then v else i q

/-- Models `self.info` as `__init__` leaves it: every key `None`. -/
def initInfo : Info := fun _ => none

/-- The `p_switch` dict in `_rw_property`:
mapping active to 6, firmware to 7, mode to 2 and period to 8 — note
the missing device-id entry (lookup raises `KeyError`). -/
def p_switch (p : PropKey) : Option Nat :=
  match p with
  | .active => some CMD_WAKE_STATE
  | .firmware => some CMD_FIRMWARE
  | .mode => some CMD_REPORT_MODE
  | .period => some CMD_WORK_PERIOD
  | .devId => none

/-- Errors `_rw_property` can surface: the two `SensorError` subclasses it
raises itself, a propagated `KeyError` from the dict lookups in `interpret`
(carrying the byte key), and a propagated `KeyError` from its own
`p_switch[p]` lookup (carrying the property-name key). -/
inductive RwError where
  | valueUnknownError : RwError
  | deviceInactiveError : RwError
  | keyErrorByte (k : Nat) : RwError
  | keyErrorName (p : PropKey) : RwError
deriving DecidableEq, Repr

/-- The method `_get_response()`: one `self._sd.read(10)` then `interpret` (the default
`interpret=True` path used by every caller in the source). -/
def get_response (t : Transport) : Except PyError Reply × Transport :=
  let (resp, t2) := t.read
  (interpret resp, t2)

/-- The method `_rw_property(p, p_set, p_value)` over explicit state: returns the
outcome together with the instance state (`info`) and transport state
after the call — Python keeps both across a raised exception. Cache hit
(`info[p] is not None and not p_set`) answers from memory without any
transport traffic; otherwise the command is sent, the 10-byte response
read and interpreted; `IndexError` during interpretation becomes
`DeviceInactiveError` (write) or `ValueUnknownError` (read), `KeyError`
propagates, a checksum-invalid reply raises `ValueUnknownError`, and a
checksum-valid reply is stored in `info[p]` and returned. -/
def rw_property (p : PropKey) (p_set p_value : Nat) (info : Info) (t : Transport) :
    Except RwError Reply × Info × Transport :=
  match info p, p_set with
  | some v, 0 =>
    (Except.ok ⟨p.name, 0, v, device_id, true⟩, info, t)
  | _, _ =>
    match p_switch p with
    | none => (Except.error (RwError.keyErrorName p), info, t)
    | some cmd =>
      let t1 := t.write (send_command_message device_id cmd p_set p_value)
      let (res, t2) := get_response t1
      match res with
      | Except.error PyError.indexError =>
        if p_set ≠ 0 then (Except.error RwError.deviceInactiveError, info, t2)
        else (Except.error RwError.valueUnknownError, info, t2)
      | Except.error (PyError.keyError k) => (Except.error (RwError.keyErrorByte k), info, t2)
      | Except.ok reply =>
        if reply.checksum then
          (Except.ok reply, Info.store info p (some reply.value), t2)
        else
          (Except.error RwError.valueUnknownError, info, t2)

/-- A Python keyword-argument value as the checks of `set_up` inspect it:
an int or a byte string. -/
inductive PyVal where
  | int (n : Int) : PyVal
  | bytes (b : List Nat) : PyVal
deriving DecidableEq, Repr

/-- The check `is_zero_to_one` (membership of x in the set 0, 1; a byte string is never
equal to 0 or 1). -/
def is_zero_to_one : PyVal → Bool
  | .int n => n == 0 || n == 1
  | .bytes _ => false

/-- The check `is_two_bytes`: x is a byte string of length exactly 2. -/
def is_two_bytes : PyVal → Bool
  | .int _ => false
  | .bytes b => b.length == 2

/-- The check `is_zero_to_thirty`: 0 <= x <= 30 and x is a whole number
(for an int the wholeness test always holds; the byte-string case is
unreachable in `set_up`, which aborts at the `device_id` step first). -/
def is_zero_to_thirty : PyVal → Bool
  | .int n => 0 ≤ n && n ≤ 30
  | .bytes _ => false

/-- The value byte handed to `bytearray([command, write, value])`.
Only ever reached with a small nonnegative int: the byte-string
`device_id` case raises `KeyError` at `p_switch[p]` before the payload
is built. -/
def PyVal.toByte : PyVal → Nat
  | .int n => n.toNat
  | .bytes _ => 0

/-- The keyword arguments `set_up(**kwargs)` consults (`kwargs.get(key, -1)`
for the four checked keys). -/
structure Kwargs where
  active : Option PyVal
  device_id : Option PyVal
  mode : Option PyVal
  period : Option PyVal
deriving DecidableEq

/-- One iteration of the `set_up` loop:
`if check(value): self._rw_property(key, 1, value) else: self._rw_property(key)`. -/
def set_up_step (p : PropKey) (check : PyVal → Bool) (v : PyVal)
    (info : Info) (t : Transport) : Except RwError Reply × Info × Transport :=
  if check v then rw_property p 1 v.toByte info t
  else rw_property p 0 0 info t

/-- Sequencing of `set_up` steps: a raised exception aborts the rest,
keeping the instance and transport state at the point of the raise. -/
def stepThen (s : Except RwError Reply × Info × Transport)
    (k : Info → Transport → Except RwError Unit × Info × Transport) :
    Except RwError Unit × Info × Transport :=
  match s with
  | (Except.error e, i, tr) => (Except.error e, i, tr)
  | (Except.ok _, i, tr) => k i tr

/-- The method `set_up` over kwargs: iterates `props_checks` in dict insertion order
(`active`, `device_id`, `mode`, `period`), then reads `firmware`. -/
def set_up (kw : Kwargs) (info : Info) (t : Transport) :
    Except RwError Unit × Info × Transport :=
  stepThen (set_up_step .active is_zero_to_one (kw.active.getD (PyVal.int (-1))) info t)
    fun i1 t1 =>
  stepThen (set_up_step .devId is_two_bytes (kw.device_id.getD (PyVal.int (-1))) i1 t1)
    fun i2 t2 =>
  stepThen (set_up_step .mode is_zero_to_one (kw.mode.getD (PyVal.int (-1))) i2 t2)
    fun i3 t3 =>
  stepThen (set_up_step .period is_zero_to_thirty (kw.period.getD (PyVal.int (-1))) i3 t3)
    fun i4 t4 =>
  stepThen (rw_property .firmware 0 0 i4 t4)
    fun i5 t5 => (Except.ok (), i5, t5)

/-! ## Helper lemmas -/

/-- Writing a message does not change what the next read returns. -/
theorem Transport.read_fst_write (t : Transport) (m : List Nat) :
    ((t.write m).read).1 = (t.read).1 := by
  cases t with
  | mk ws rs => cases rs <;> rfl

/-- A stored value is what the store reports at its own key. -/
theorem Info.store_self (i : Info) (p : PropKey) (v : Option Value) :
    Info.store i p v p = v := by
  simp [Info.store]

/-- Binding an `Except.ok` value reduces to the continuation. -/
theorem exbind_ok {e a b : Type} (v : a) (f : a → Except e b) :
    (Except.ok v >>= f) = f v := rfl

/-- Binding an `Except.error` value short-circuits. -/
theorem exbind_error {e a b : Type} (err : e) (f : a → Except e b) :
    ((Except.error err : Except e a) >>= f) = Except.error err := rfl

/-- A 10-byte response is a literal list of ten bytes. -/
theorem length_ten_shape (b : List Nat) (h : b.length = 10) :
    ∃ a0 a1 a2 a3 a4 a5 a6 a7 a8 a9,
      b = [a0, a1, a2, a3, a4, a5, a6, a7, a8, a9] := by
  rcases b with _ | ⟨a0, _ | ⟨a1, _ | ⟨a2, _ | ⟨a3, _ | ⟨a4, _ | ⟨a5, _ | ⟨a6, _ | ⟨a7,
    _ | ⟨a8, _ | ⟨a9, rest⟩⟩⟩⟩⟩⟩⟩⟩⟩⟩ <;>
    simp only [List.length_cons, List.length_nil] at h
  all_goals try omega
  cases rest with
  | nil => exact ⟨a0, a1, a2, a3, a4, a5, a6, a7, a8, a9, rfl⟩
  | cons c l => simp at h

/-- The parser looks at byte 8 only through the reported checksum field:
replacing byte 8 maps the result of interpreting the original bytes,
keeping the decoded type/set/value, fixing the id to bytes 6..7, and
recomputing only the checksum comparison. -/
theorem interpret_map_tail (b0 b1 b2 b3 b4 b5 b6 b7 b8 b9 c : Nat) :
    interpret [b0, b1, b2, b3, b4, b5, b6, b7, c, b9]
      = (interpret [b0, b1, b2, b3, b4, b5, b6, b7, b8, b9]).map
          (fun r => ⟨r.type, r.set, r.value, [b6, b7],
                     decide (c = calc_payload_checksum [b2, b3, b4, b5, b6, b7])⟩) := by
  by_cases h5 : b1 = 0xc5
  · subst h5
    by_cases h2 : b2 = 2
    · subst h2; rfl
    · by_cases hd : b2 = 5
      · subst hd; rfl
      · by_cases h6 : b2 = 6
        · subst h6; rfl
        · by_cases h7 : b2 = 7
          · subst h7; rfl
          · by_cases h8 : b2 = 8
            · subst h8; rfl
            · simp [interpret, interpret_property, pyget, property_switch,
                    h2, hd, h6, h7, h8, exbind_ok, exbind_error, Except.map]
  · by_cases h0 : b1 = 0xc0
    · subst h0; rfl
    · simp [interpret, pyget, h5, h0, exbind_ok, exbind_error, Except.map]

/-- Whenever `interpret` succeeds on ten bytes, the id of the reply is bytes
6..7 and its checksum flag is the comparison of byte 8 with the additive
checksum of bytes 2..7. -/
theorem interpret_ok_shape (b0 b1 b2 b3 b4 b5 b6 b7 b8 b9 : Nat) (r : Reply)
    (h : interpret [b0, b1, b2, b3, b4, b5, b6, b7, b8, b9] = Except.ok r) :
    r.id = [b6, b7] ∧
    r.checksum = decide (b8 = calc_payload_checksum [b2, b3, b4, b5, b6, b7]) := by
  have self := interpret_map_tail b0 b1 b2 b3 b4 b5 b6 b7 b8 b9 b8
  rw [h] at self
  obtain ⟨ty, st, vl, idf, ck⟩ := r
  simp [Except.map, Reply.mk.injEq] at self
  exact ⟨self.1, self.2⟩

/-- Cache-hit equation for `_rw_property`: a stored value and a read
request answer from memory, with no transport interaction. -/
theorem rw_property_hit_eq (p : PropKey) (pv : Nat) (info : Info) (t : Transport)
    (v : Value) (hv : info p = some v) :
    rw_property p 0 pv info t
      = (Except.ok ⟨p.name, 0, v, device_id, true⟩, info, t) := by
  simp [rw_property, hv]

/-- Missing-command-code equation for `_rw_property`: off the cache-hit
path, a property with no `p_switch` entry raises `KeyError` before any
transport interaction. -/
theorem rw_property_nokey_eq (p : PropKey) (pset pv : Nat) (info : Info)
    (t : Transport) (hps : p_switch p = none)
    (hmiss : info p = none ∨ pset ≠ 0) :
    rw_property p pset pv info t
      = (Except.error (RwError.keyErrorName p), info, t) := by
  rcases hmiss with hip | hset
  · simp [rw_property, hip, hps]
  · cases pset with
    | zero => exact absurd rfl hset
    | succ n => cases hip : info p <;> simp [rw_property, hip, hps]

/-- Write-path equation for `_rw_property`: off the cache-hit path, the
command packet is written, the next pending response is consumed, and the
outcome is decided by interpreting it. -/
theorem rw_property_write_eq (p : PropKey) (cmd pset pv : Nat) (info : Info)
    (t : Transport) (hps : p_switch p = some cmd)
    (hmiss : info p = none ∨ pset ≠ 0) :
    rw_property p pset pv info t =
      (match interpret (t.reads.headD []) with
       | Except.error PyError.indexError =>
         if pset ≠ 0 then
           (Except.error RwError.deviceInactiveError, info,
            ⟨t.writes ++ [send_command_message device_id cmd pset pv], t.reads.tail⟩)
         else
           (Except.error RwError.valueUnknownError, info,
            ⟨t.writes ++ [send_command_message device_id cmd pset pv], t.reads.tail⟩)
       | Except.error (PyError.keyError k) =>
         (Except.error (RwError.keyErrorByte k), info,
          ⟨t.writes ++ [send_command_message device_id cmd pset pv], t.reads.tail⟩)
       | Except.ok reply =>
         if reply.checksum then
           (Except.ok reply, Info.store info p (some reply.value),
            ⟨t.writes ++ [send_command_message device_id cmd pset pv], t.reads.tail⟩)
         else
           (Except.error RwError.valueUnknownError, info,
            ⟨t.writes ++ [send_command_message device_id cmd pset pv], t.reads.tail⟩)) := by
  rcases t with ⟨ws, rs⟩
  rcases hmiss with hip | hset
  · cases rs <;>
      simp [rw_property, hip, hps, get_response, Transport.write, Transport.read]
  · cases pset with
    | zero => exact absurd rfl hset
    | succ n =>
      cases hip : info p <;> cases rs <;>
        simp [rw_property, hip, hps, get_response, Transport.write, Transport.read]

/-! ## Claims -/

/-- C1 (counterexample): a well-formed 10-byte property response whose
head byte is altered to 0x00 and whose tail byte is altered to 0x00 is
decoded normally by `interpret` — it is not rejected with any framing
error, contradicting the claim that altered marker bytes are rejected. -/
theorem c1_framing_counterexample :
    interpret [0x00, 0xc5, 0x06, 0, 1, 0, 0, 0, 7, 0x00]
      = Except.ok ⟨"active", 0, Value.int 1, [0, 0], true⟩ := by
  rfl

/-- C1 (amended): `interpret` performs no framing validation at all — it
never examines byte 0 or byte 9, so replacing both marker bytes of any
10-byte response leaves the result unchanged; no `FramingError` exists. -/
theorem c1_framing_amended (b : List Nat) (x y : Nat) (h : b.length = 10) :
    interpret ((b.set 0 x).set 9 y) = interpret b := by
  obtain ⟨b0, b1, b2, b3, b4, b5, b6, b7, b8, b9, rfl⟩ := length_ten_shape b h
  show interpret [x, b1, b2, b3, b4, b5, b6, b7, b8, y]
        = interpret [b0, b1, b2, b3, b4, b5, b6, b7, b8, b9]
  by_cases h5 : b1 = 0xc5
  · subst h5
    by_cases h2 : b2 = 2
    · subst h2; rfl
    · by_cases hd : b2 = 5
      · subst hd; rfl
      · by_cases h6 : b2 = 6
        · subst h6; rfl
        · by_cases h7 : b2 = 7
          · subst h7; rfl
          · by_cases h8 : b2 = 8
            · subst h8; rfl
            · simp [interpret, interpret_property, pyget, property_switch,
                    h2, hd, h6, h7, h8, exbind_ok, exbind_error]
  · by_cases h0 : b1 = 0xc0
    · subst h0; rfl
    · simp [interpret, pyget, h5, h0, exbind_ok, exbind_error]

/-- C1 (amended, witness). -/
theorem c1_framing_amended_witness :
    interpret (([0xaa, 0xc5, 0x06, 0, 1, 0, 0, 0, 7, 0xab].set 0 0).set 9 0)
      = interpret [0xaa, 0xc5, 0x06, 0, 1, 0, 0, 0, 7, 0xab] :=
  c1_framing_amended [0xaa, 0xc5, 0x06, 0, 1, 0, 0, 0, 7, 0xab] 0 0 rfl

/-- C2 (counterexample): the outbound command packet is 19 bytes, not 17
as claimed — the payload is 15 bytes (3 command bytes, 10 reserved zero
bytes, 2 device-id bytes), not 13. -/
theorem c2_packet_counterexample :
    (send_command_message device_id CMD_REPORT_MODE 1 1).length = 19 ∧
    (send_command_message device_id CMD_REPORT_MODE 1 1).length ≠ 17 := by
  constructor <;> decide

/-- C2 (amended): for every command code, write flag, value byte and
2-byte device id, the outbound packet is exactly 19 bytes: HEAD 0xAA,
device-msg-id 0xB4, a 15-byte payload (command code, write flag, value,
ten reserved zero bytes, 2-byte device id), one checksum byte equal to
the low 8 bits of the sum of the payload bytes, and TAIL 0xAB. -/
theorem c2_packet_amended (cmd w v : Nat) (did : List Nat)
    (hcmd : cmd < 256) (hw : w = 0 ∨ w = 1) (hv : v < 256)
    (hdid : did.length = 2) :
    (send_command_message did cmd w v).length = 19 ∧
    (send_command_message did cmd w v).get? 0 = some MSG_HEAD ∧
    (send_command_message did cmd w v).get? 1 = some MSG_ID ∧
    (send_command_message did cmd w v).get? 18 = some MSG_TAIL ∧
    pyslice (send_command_message did cmd w v) 2 17
      = [cmd, w, v] ++ List.replicate 10 0 ++ did ∧
    ([cmd, w, v] ++ List.replicate 10 0 ++ did).length = 15 ∧
    (send_command_message did cmd w v).get? 17
      = some (calc_payload_checksum ([cmd, w, v] ++ List.replicate 10 0 ++ did)) := by
  rcases did with _ | ⟨d0, _ | ⟨d1, rest⟩⟩ <;>
    simp only [List.length_cons, List.length_nil] at hdid
  all_goals try omega
  cases rest with
  | nil => exact ⟨rfl, rfl, rfl, rfl, rfl, rfl, rfl⟩
  | cons c l => simp at hdid

/-- C2 (amended, witness). -/
theorem c2_packet_amended_witness :
    (send_command_message [0xff, 0xff] CMD_WORK_PERIOD 1 30).length = 19 ∧
    (send_command_message [0xff, 0xff] CMD_WORK_PERIOD 1 30).get? 0 = some MSG_HEAD ∧
    (send_command_message [0xff, 0xff] CMD_WORK_PERIOD 1 30).get? 1 = some MSG_ID ∧
    (send_command_message [0xff, 0xff] CMD_WORK_PERIOD 1 30).get? 18 = some MSG_TAIL ∧
    pyslice (send_command_message [0xff, 0xff] CMD_WORK_PERIOD 1 30) 2 17
      = [CMD_WORK_PERIOD, 1, 30] ++ List.replicate 10 0 ++ [0xff, 0xff] ∧
    ([CMD_WORK_PERIOD, 1, 30] ++ List.replicate 10 0 ++ [0xff, 0xff]).length = 15 ∧
    (send_command_message [0xff, 0xff] CMD_WORK_PERIOD 1 30).get? 17
      = some (calc_payload_checksum
          ([CMD_WORK_PERIOD, 1, 30] ++ List.replicate 10 0 ++ [0xff, 0xff])) :=
  c2_packet_amended CMD_WORK_PERIOD 1 30 [0xff, 0xff]
    (by decide) (Or.inr rfl) (by decide) rfl

/-- C6 (counterexample): a 10-byte response whose byte 1 is 0x13 (neither
0xC5 nor 0xC0) fails with the dict-lookup `KeyError` carrying the byte —
exactly the silent key-error failure mode the claim says is avoided; no
`UnknownReplyKindError` exists anywhere in the code. -/
theorem c6_kind_counterexample :
    interpret [0xaa, 0x13, 0, 0, 0, 0, 0, 0, 0, 0xab]
      = Except.error (PyError.keyError 0x13) := by
  rfl

/-- C6 (amended): for every 10-byte response whose byte 1 is neither 0xC5
nor 0xC0, `interpret` fails with the `KeyError` of the `switch` dict
lookup, carrying byte 1 as the key. -/
theorem c6_kind_amended (b : List Nat) (k : Nat) (h : b.length = 10)
    (hk : b[1]? = some k) (h5 : k ≠ 0xc5) (h0 : k ≠ 0xc0) :
    interpret b = Except.error (PyError.keyError k) := by
  simp [interpret, pyget, hk, h5, h0, exbind_ok, exbind_error]

/-- C6 (amended, witness). -/
theorem c6_kind_amended_witness :
    interpret [0xaa, 0x13, 0, 0, 0, 0, 0, 0, 0, 0xab]
      = Except.error (PyError.keyError 0x13) :=
  c6_kind_amended [0xaa, 0x13, 0, 0, 0, 0, 0, 0, 0, 0xab] 0x13
    rfl rfl (by decide) (by decide)

/-- C3: the read-through/write-through cache policy of `_rw_property`:
(i) a cached value answers a get from memory with the transport left
completely untouched (no write, no read); (ii) a successful get stores
the returned value in the cache, so the next get of the same property is
a pure cache hit; (iii) a set (`p_set = 1`) always writes the command
packet to the transport, whatever the cache holds; (iv) a successful set
stores the confirmed reply value in the cache for that property. -/
theorem c3_cache_policy (p : PropKey) (info : Info) (t : Transport) :
    (∀ v, info p = some v →
       rw_property p 0 0 info t
         = (Except.ok ⟨p.name, 0, v, device_id, true⟩, info, t)) ∧
    (∀ r i2 t2, rw_property p 0 0 info t = (Except.ok r, i2, t2) →
       i2 p = some r.value) ∧
    (∀ cmd pv, p_switch p = some cmd →
       (rw_property p 1 pv info t).2.2.writes
         = t.writes ++ [send_command_message device_id cmd 1 pv]) ∧
    (∀ pv r i2 t2, rw_property p 1 pv info t = (Except.ok r, i2, t2) →
       i2 p = some r.value) := by
  refine ⟨?_, ?_, ?_, ?_⟩
  · intro v hv
    exact rw_property_hit_eq p 0 info t v hv
  · intro r i2 t2 h
    cases hip : info p with
    | some v =>
      rw [rw_property_hit_eq p 0 info t v hip] at h
      simp only [Prod.mk.injEq, Except.ok.injEq] at h
      obtain ⟨hr, hi, -⟩ := h
      subst hr; subst hi
      exact hip
    | none =>
      cases hps : p_switch p with
      | none =>
        rw [rw_property_nokey_eq p 0 0 info t hps (Or.inl hip)] at h
        simp at h
      | some cmd =>
        rw [rw_property_write_eq p cmd 0 0 info t hps (Or.inl hip)] at h
        cases hI : interpret (t.reads.headD []) with
        | error e => cases e <;> rw [hI] at h <;> simp at h
        | ok reply =>
          rw [hI] at h
          by_cases hc : reply.checksum
          · simp only [hc, if_true, Prod.mk.injEq, Except.ok.injEq] at h
            obtain ⟨hr, hi, -⟩ := h
            subst hr; subst hi
            simp [Info.store]
          · simp [hc] at h
  · intro cmd pv hps
    rw [rw_property_write_eq p cmd 1 pv info t hps (Or.inr (by decide))]
    cases hI : interpret (t.reads.headD []) with
    | error e => cases e <;> simp
    | ok reply => by_cases hc : reply.checksum <;> simp [hc]
  · intro pv r i2 t2 h
    cases hps : p_switch p with
    | none =>
      rw [rw_property_nokey_eq p 1 pv info t hps (Or.inr (by decide))] at h
      simp at h
    | some cmd =>
      rw [rw_property_write_eq p cmd 1 pv info t hps (Or.inr (by decide))] at h
      cases hI : interpret (t.reads.headD []) with
      | error e => cases e <;> rw [hI] at h <;> simp at h
      | ok reply =>
        rw [hI] at h
        by_cases hc : reply.checksum
        · simp only [hc, if_true, Prod.mk.injEq, Except.ok.injEq] at h
          obtain ⟨hr, hi, -⟩ := h
          subst hr; subst hi
          simp [Info.store]
        · simp [hc] at h

/-- C3 (witness). -/
theorem c3_cache_policy_witness :
    rw_property PropKey.period 0 0
        (Info.store initInfo PropKey.period (some (Value.int 10))) ⟨[], []⟩
      = (Except.ok ⟨"period", 0, Value.int 10, device_id, true⟩,
         Info.store initInfo PropKey.period (some (Value.int 10)), ⟨[], []⟩) :=
  (c3_cache_policy PropKey.period
      (Info.store initInfo PropKey.period (some (Value.int 10))) ⟨[], []⟩).1
    (Value.int 10) rfl

/-- C4: for a 10-byte response accepted by the kind dispatcher whose
byte 8 does not match the additive checksum of bytes 2..7, the mismatch
is never the cause of a parse failure (correcting byte 8 leaves success
and failure unchanged), and whenever decoding succeeds it reports
checksum-valid = false while the type, set, value and device-id fields
are decoded exactly as for the corrected-checksum response. -/
theorem c4_checksum_reported (b : List Nat) (h10 : b.length = 10)
    (hk : b[1]? = some 0xc0 ∨ b[1]? = some 0xc5)
    (hm : b[8]? ≠ some (calc_payload_checksum (pyslice b 2 8))) :
    ((interpret b).isOk
       = (interpret (b.set 8 (calc_payload_checksum (pyslice b 2 8)))).isOk) ∧
    (∀ r, interpret b = Except.ok r → r.checksum = false ∧ r.id = pyslice b 6 8) ∧
    (∀ r, interpret (b.set 8 (calc_payload_checksum (pyslice b 2 8))) = Except.ok r →
       interpret b = Except.ok ⟨r.type, r.set, r.value, r.id, false⟩) := by
  obtain ⟨b0, b1, b2, b3, b4, b5, b6, b7, b8, b9, rfl⟩ := length_ten_shape b h10
  simp only [List.getElem?_cons_zero, List.getElem?_cons_succ,
    Option.some.injEq, ne_eq] at hk hm
  have hcs : calc_payload_checksum (pyslice [b0, b1, b2, b3, b4, b5, b6, b7, b8, b9] 2 8)
      = calc_payload_checksum [b2, b3, b4, b5, b6, b7] := rfl
  rw [hcs] at hm ⊢
  have hset : ([b0, b1, b2, b3, b4, b5, b6, b7, b8, b9].set 8
      (calc_payload_checksum [b2, b3, b4, b5, b6, b7]))
      = [b0, b1, b2, b3, b4, b5, b6, b7,
         calc_payload_checksum [b2, b3, b4, b5, b6, b7], b9] := rfl
  rw [hset]
  have keyfix := interpret_map_tail b0 b1 b2 b3 b4 b5 b6 b7 b8 b9
    (calc_payload_checksum [b2, b3, b4, b5, b6, b7])
  refine ⟨?_, ?_, ?_⟩
  · rw [keyfix]
    cases interpret [b0, b1, b2, b3, b4, b5, b6, b7, b8, b9] <;> rfl
  · intro r hr
    have hsh := interpret_ok_shape b0 b1 b2 b3 b4 b5 b6 b7 b8 b9 r hr
    refine ⟨?_, hsh.1⟩
    rw [hsh.2]
    simp [hm]
  · intro r hr
    rw [keyfix] at hr
    cases hI : interpret [b0, b1, b2, b3, b4, b5, b6, b7, b8, b9] with
    | error e => rw [hI] at hr; simp [Except.map] at hr
    | ok r0 =>
      rw [hI] at hr
      have hsh := interpret_ok_shape b0 b1 b2 b3 b4 b5 b6 b7 b8 b9 r0 hI
      obtain ⟨ty, st, vl, idf, ck⟩ := r0
      simp only [Except.map, Except.ok.injEq] at hr
      subst hr
      obtain ⟨hid, hck⟩ := hsh
      subst hid
      simp only at hck
      simp [hck, hm]

/-- C4 (witness). -/
theorem c4_checksum_reported_witness :
    ((interpret [0xaa, 0xc0, 1, 2, 3, 4, 5, 6, 0, 0xab]).isOk
       = (interpret ([0xaa, 0xc0, 1, 2, 3, 4, 5, 6, 0, 0xab].set 8
           (calc_payload_checksum
             (pyslice [0xaa, 0xc0, 1, 2, 3, 4, 5, 6, 0, 0xab] 2 8)))).isOk) ∧
    (∀ r, interpret [0xaa, 0xc0, 1, 2, 3, 4, 5, 6, 0, 0xab] = Except.ok r →
       r.checksum = false ∧
       r.id = pyslice [0xaa, 0xc0, 1, 2, 3, 4, 5, 6, 0, 0xab] 6 8) ∧
    (∀ r, interpret ([0xaa, 0xc0, 1, 2, 3, 4, 5, 6, 0, 0xab].set 8
        (calc_payload_checksum
          (pyslice [0xaa, 0xc0, 1, 2, 3, 4, 5, 6, 0, 0xab] 2 8))) = Except.ok r →
       interpret [0xaa, 0xc0, 1, 2, 3, 4, 5, 6, 0, 0xab]
         = Except.ok ⟨r.type, r.set, r.value, r.id, false⟩) :=
  c4_checksum_reported [0xaa, 0xc0, 1, 2, 3, 4, 5, 6, 0, 0xab]
    rfl (Or.inl rfl) (by decide)

/-- C5 (counterexample): a `set_property`-style write whose transport
read returns only 9 bytes does not fail with `DeviceInactiveError` — a
9-byte response still has a byte at index 8, so interpretation succeeds
and the set completes normally. -/
theorem c5_short_read_counterexample :
    (rw_property PropKey.period 1 30 initInfo
        ⟨[], [[0xaa, 0xc0, 0, 0, 0, 0, 0, 0, 0]]⟩).1.isOk = true ∧
    (rw_property PropKey.period 1 30 initInfo
        ⟨[], [[0xaa, 0xc0, 0, 0, 0, 0, 0, 0, 0]]⟩).1
      ≠ Except.error RwError.deviceInactiveError := by
  have hOk : (rw_property PropKey.period 1 30 initInfo
      ⟨[], [[0xaa, 0xc0, 0, 0, 0, 0, 0, 0, 0]]⟩).1
      = Except.ok ⟨"sample", 0,
          Value.sample
            ((from_bytes_le (pyslice [0xaa, 0xc0, 0, 0, 0, 0, 0, 0, 0] 2 4) : ℚ) / 10)
            ((from_bytes_le (pyslice [0xaa, 0xc0, 0, 0, 0, 0, 0, 0, 0] 4 6) : ℚ) / 10),
          [0, 0], true⟩ := rfl
  rw [hOk]
  exact ⟨rfl, fun h => Except.noConfusion h⟩

/-- C5 (amended): a short transport read fails with
`DeviceInactiveError` (set) or `ValueUnknownError` (uncached get) exactly
when interpreting the read bytes raises `IndexError` — e.g. an empty
read. Short reads that interpretation survives (such as well-formed
9-byte responses) or that fail the byte-1 dict lookup (`KeyError`) do not
take these error paths. -/
theorem c5_short_read_amended (p : PropKey) (cmd pv : Nat) (info : Info)
    (t : Transport) (hps : p_switch p = some cmd)
    (hidx : interpret (t.reads.headD []) = Except.error PyError.indexError) :
    (rw_property p 1 pv info t).1 = Except.error RwError.deviceInactiveError ∧
    (info p = none →
      (rw_property p 0 0 info t).1 = Except.error RwError.valueUnknownError) := by
  constructor
  · rw [rw_property_write_eq p cmd 1 pv info t hps (Or.inr (by decide))]
    rw [hidx]
    simp
  · intro hip
    rw [rw_property_write_eq p cmd 0 0 info t hps (Or.inl hip)]
    rw [hidx]
    simp

/-- C5 (amended, witness): an empty read (device off / timeout). -/
theorem c5_short_read_amended_witness :
    (rw_property PropKey.period 1 30 initInfo ⟨[], []⟩).1
        = Except.error RwError.deviceInactiveError ∧
    (initInfo PropKey.period = none →
      (rw_property PropKey.period 0 0 initInfo ⟨[], []⟩).1
        = Except.error RwError.valueUnknownError) :=
  c5_short_read_amended PropKey.period CMD_WORK_PERIOD 30 initInfo ⟨[], []⟩ rfl rfl

/-- C7: whenever `_rw_property` fails with `ValueUnknownError` (in
particular when the checksum of the reply did not validate), the property
cache is left exactly as it was before the call. -/
theorem c7_cache_unchanged (p : PropKey) (pset pv : Nat) (info : Info)
    (t : Transport)
    (h : (rw_property p pset pv info t).1 = Except.error RwError.valueUnknownError) :
    (rw_property p pset pv info t).2.1 = info := by
  by_cases hmiss : info p = none ∨ pset ≠ 0
  · cases hps : p_switch p with
    | none => rw [rw_property_nokey_eq p pset pv info t hps hmiss]
    | some cmd =>
      rw [rw_property_write_eq p cmd pset pv info t hps hmiss] at h ⊢
      cases hI : interpret (t.reads.headD []) with
      | error e =>
        cases e with
        | keyError k => rfl
        | indexError => by_cases hset : pset ≠ 0 <;> simp [hset]
      | ok reply =>
        rw [hI] at h
        by_cases hc : reply.checksum
        · simp [hc] at h
        · simp [hc]
  · push_neg at hmiss
    obtain ⟨hsome, hzero⟩ := hmiss
    cases hip : info p with
    | none => exact absurd hip hsome
    | some v =>
      subst hzero
      rw [rw_property_hit_eq p pv info t v hip]

/-- C7 (witness): a get whose reply is well-framed but checksum-invalid
(byte 8 is 99, the correct checksum is 18) leaves the cache untouched. -/
theorem c7_cache_unchanged_witness :
    (rw_property PropKey.period 0 0 initInfo
        ⟨[], [[0xaa, 0xc5, 0x08, 0, 10, 0, 0, 0, 99, 0xab]]⟩).2.1 = initInfo :=
  c7_cache_unchanged PropKey.period 0 0 initInfo
    ⟨[], [[0xaa, 0xc5, 0x08, 0, 10, 0, 0, 0, 99, 0xab]]⟩ rfl

/-- C8: every 10-byte response with byte 1 = 0xC0 decodes successfully,
and its sample value is the little-endian 16-bit integer of bytes 2..3
divided by 10 (PM2.5) and of bytes 4..5 divided by 10 (PM10). -/
theorem c8_sample_decode (b : List Nat) (h10 : b.length = 10)
    (hk : b[1]? = some 0xc0) :
    ∃ r, interpret b = Except.ok r ∧
      r.value = Value.sample
        (((b.getD 2 0 : ℚ) + 256 * (b.getD 3 0 : ℚ)) / 10)
        (((b.getD 4 0 : ℚ) + 256 * (b.getD 5 0 : ℚ)) / 10) := by
  obtain ⟨b0, b1, b2, b3, b4, b5, b6, b7, b8, b9, rfl⟩ := length_ten_shape b h10
  simp only [List.getElem?_cons_zero, List.getElem?_cons_succ,
    Option.some.injEq] at hk
  subst hk
  refine ⟨⟨"sample", b3,
    Value.sample ((from_bytes_le [b2, b3] : ℚ) / 10)
                 ((from_bytes_le [b4, b5] : ℚ) / 10),
    [b6, b7],
    decide (b8 = calc_payload_checksum [b2, b3, b4, b5, b6, b7])⟩, rfl, ?_⟩
  simp only [from_bytes_le, List.foldr, Value.sample.injEq, List.getD,
    List.get?_cons_succ, List.get?_cons_zero, Option.getD_some]
  constructor <;> · push_cast; ring_nf

/-- C8 (witness): bytes 2..3 = little-endian 150 and bytes 4..5 =
little-endian 300 decode to PM2.5 = 15 and PM10 = 30. -/
theorem c8_sample_decode_witness :
    ∃ r, interpret [0xaa, 0xc0, 150, 0, 44, 1, 0, 0, 195, 0xab] = Except.ok r ∧
      r.value = Value.sample 15 30 := by
  obtain ⟨r, hr, hv⟩ :=
    c8_sample_decode [0xaa, 0xc0, 150, 0, 44, 1, 0, 0, 195, 0xab] rfl rfl
  refine ⟨r, hr, ?_⟩
  rw [hv]
  norm_num

/-- C9: for every combination of keyword arguments, `set_up` on a fresh
instance aborts with the uncaught `KeyError` raised by the missing
device-id entry of the command table in `_rw_property` (demonstrated
against a device that answers every request with a well-formed,
checksum-valid property reply). -/
theorem c9_setup_keyerror (kw : Kwargs) :
    (set_up kw initInfo ⟨[], [[0xaa, 0xc5, 0x06, 0, 1, 0, 0, 0, 7, 0xab]]⟩).1
      = Except.error (RwError.keyErrorName PropKey.devId) := by
  have hI : interpret [0xaa, 0xc5, 0x06, 0, 1, 0, 0, 0, 7, 0xab]
      = Except.ok ⟨"active", 0, Value.int 1, [0, 0], true⟩ := rfl
  cases h1 : is_zero_to_one (kw.active.getD (PyVal.int (-1))) <;>
    cases h2 : is_two_bytes (kw.device_id.getD (PyVal.int (-1))) <;>
    simp [set_up, stepThen, set_up_step, rw_property, initInfo, Info.store,
      get_response, Transport.write, Transport.read, hI, h1, h2, p_switch]

/-- C10: a checksum-valid reply to an uncached get is stored in the cache
under the requested property and returned as is — there is no check that
the decoded type of the reply corresponds to the requested property, so even a
sample reply is cached under the name of the property. -/
theorem c10_reply_cached_unchecked (p : PropKey) (cmd : Nat) (info : Info)
    (t : Transport) (r : Reply) (hps : p_switch p = some cmd)
    (hun : info p = none)
    (hresp : interpret (t.reads.headD []) = Except.ok r)
    (hcs : r.checksum = true) :
    rw_property p 0 0 info t
      = (Except.ok r, Info.store info p (some r.value),
         ⟨t.writes ++ [send_command_message device_id cmd 0 0], t.reads.tail⟩) := by
  rw [rw_property_write_eq p cmd 0 0 info t hps (Or.inl hun)]
  rw [hresp]
  simp [hcs]

/-- C10 (witness): a get of `period` answered by a sample reply caches
the sample value under `period`. -/
theorem c10_reply_cached_unchecked_witness :
    rw_property PropKey.period 0 0 initInfo
        ⟨[], [[0xaa, 0xc0, 150, 0, 44, 1, 0, 0, 195, 0xab]]⟩
      = (Except.ok ⟨"sample", 0,
            Value.sample ((from_bytes_le [150, 0] : ℚ) / 10)
                         ((from_bytes_le [44, 1] : ℚ) / 10), [0, 0], true⟩,
         Info.store initInfo PropKey.period
           (some (Value.sample ((from_bytes_le [150, 0] : ℚ) / 10)
                               ((from_bytes_le [44, 1] : ℚ) / 10))),
         ⟨[send_command_message device_id CMD_WORK_PERIOD 0 0], []⟩) :=
  c10_reply_cached_unchecked PropKey.period CMD_WORK_PERIOD initInfo
    ⟨[], [[0xaa, 0xc0, 150, 0, 44, 1, 0, 0, 195, 0xab]]⟩
    ⟨"sample", 0,
      Value.sample ((from_bytes_le [150, 0] : ℚ) / 10)
                   ((from_bytes_le [44, 1] : ℚ) / 10), [0, 0], true⟩
    rfl rfl rfl rfl

end SDS011
